import Mathlib

/-!
Verification of the `W298/apollo11` Direct3D 12 planet-rendering sample.

The development shallowly embeds the two source files:

* `src/Shaders/Shader.hlsli` — the vertex/hull/domain/pixel shader pipeline.
  HLSL `float` arithmetic is modelled over `ℝ`; texture sampling and the
  shadow-map comparison sampler are uninterpreted oracle functions, and the
  domain shader additionally records the list of texture lookups it performs.
* `src/Game.cpp` — the frame loop (`Tick`/`Update`/`Render`) and
  `CreateDeviceDependentResources`.  Direct3D API calls are modelled as event
  traces; DirectXMath helpers (`XMMatrixRotationRollPitchYaw`,
  `XMVector3TransformCoord`, `XMMatrixLookAtLH`) are uninterpreted oracles.
-/

noncomputable section

namespace Apollo

/-! ### HLSL vector and matrix types -/

/-- HLSL `float3`, modelled over `ℝ`. -/
structure Float3 where
  x : ℝ
  y : ℝ
  z : ℝ
deriving DecidableEq

/-- HLSL `float4`, modelled over `ℝ`. -/
structure Float4 where
  x : ℝ
  y : ℝ
  z : ℝ
  w : ℝ
deriving DecidableEq

/-- HLSL `float4x4`, as four row vectors (`mul(v, M)` treats `v` as a row). -/
structure Mat4 where
  r0 : Float4
  r1 : Float4
  r2 : Float4
  r3 : Float4

def add3 (a b : Float3) : Float3 := ⟨a.x + b.x, a.y + b.y, a.z + b.z⟩

def sub3 (a b : Float3) : Float3 := ⟨a.x - b.x, a.y - b.y, a.z - b.z⟩

def smul3 (s : ℝ) (v : Float3) : Float3 := ⟨s * v.x, s * v.y, s * v.z⟩

def dot3 (a b : Float3) : ℝ := a.x * b.x + a.y * b.y + a.z * b.z

/-- HLSL `cross`. -/
def cross3 (a b : Float3) : Float3 :=
  ⟨a.y * b.z - a.z * b.y, a.z * b.x - a.x * b.z, a.x * b.y - a.y * b.x⟩

/-- HLSL `length` on `float3`. -/
def length3 (v : Float3) : ℝ := Real.sqrt (dot3 v v)

/-- HLSL `distance` on `float3`. -/
def dist3 (a b : Float3) : ℝ := length3 (sub3 a b)

/-- HLSL `normalize` on `float3` (`v / length(v)`). -/
def normalize3 (v : Float3) : Float3 := smul3 (1 / length3 v) v

/-- HLSL `lerp` on `float3` (`x + s*(y-x)`). -/
def lerp3 (a b : Float3) (s : ℝ) : Float3 := add3 a (smul3 s (sub3 b a))

def add4 (a b : Float4) : Float4 := ⟨a.x + b.x, a.y + b.y, a.z + b.z, a.w + b.w⟩

def smul4 (s : ℝ) (v : Float4) : Float4 := ⟨s * v.x, s * v.y, s * v.z, s * v.w⟩

def dot4 (a b : Float4) : ℝ := a.x * b.x + a.y * b.y + a.z * b.z + a.w * b.w

/-- HLSL `length` on `float4`: all four components contribute. -/
def length4 (v : Float4) : ℝ := Real.sqrt (dot4 v v)

/-- HLSL `normalize` on `float4`: a genuinely 4-dimensional normalization,
the `w` component participates in the length. -/
def normalize4 (v : Float4) : Float4 := smul4 (1 / length4 v) v

/-- The `.xyz` swizzle (also HLSL's implicit `float4 → float3` truncation). -/
def xyz (v : Float4) : Float3 := ⟨v.x, v.y, v.z⟩

/-- `float4(v, w)`. -/
def toFloat4 (v : Float3) (w : ℝ) : Float4 := ⟨v.x, v.y, v.z, w⟩

/-- HLSL `mul(v, M)` for a row vector `v`: `v.x*M[0] + v.y*M[1] + v.z*M[2] + v.w*M[3]`. -/
def mulVecMat (v : Float4) (m : Mat4) : Float4 :=
  add4 (add4 (smul4 v.x m.r0) (smul4 v.y m.r1)) (add4 (smul4 v.z m.r2) (smul4 v.w m.r3))

/-- HLSL `mul(v, M)` for a `float3` row vector and a `float3x3` matrix given by rows. -/
def mulVec3Mat (v : Float3) (row0 row1 row2 : Float3) : Float3 :=
  add3 (add3 (smul3 v.x row0) (smul3 v.y row1)) (smul3 v.z row2)

/-! ### HLSL scalar intrinsics -/

/-- HLSL `saturate`: clamp to `[0, 1]`. -/
def saturate (v : ℝ) : ℝ := min (max v 0) 1

/-- `saturate` applied componentwise to a `float2`. -/
def saturate2 (p : ℝ × ℝ) : ℝ × ℝ := (saturate p.1, saturate p.2)

/-- `saturate` applied componentwise to a `float3`. -/
def saturate3 (v : Float3) : Float3 := ⟨saturate v.x, saturate v.y, saturate v.z⟩

/-- HLSL scalar `lerp(x, y, s) = x + s*(y-x)`. -/
def hlslLerp (a b s : ℝ) : ℝ := a + s * (b - a)

/-- HLSL `sign`. -/
def hlslSign (v : ℝ) : ℝ := if v < 0 then -1 else if v = 0 then 0 else 1

/-- HLSL `atan2(y, x)`: the argument of the point `(x, y)`, in `(-π, π]`. -/
def hlslAtan2 (y x : ℝ) : ℝ := Complex.arg ⟨x, y⟩

/-- HLSL `round`: round to the nearest integer. -/
def hlslRound (v : ℝ) : ℤ := round v

/-- HLSL `pow`, modelled by the real power function. -/
def hlslPow (x y : ℝ) : ℝ := x ^ y

/-- HLSL `frac`: the fractional part `x - floor(x)`. -/
def hlslFrac (v : ℝ) : ℝ := v - ⌊v⌋

/-- The shader's `#define PI 3.1415926538` — the literal, not the real π
(it is slightly larger than π). -/
def PIL : ℝ := 3.1415926538

/-! ### Shader I/O structures (`Shader.hlsli`) -/

/-- `OpaqueCBType`, the constant buffer read by every shader stage. -/
structure OpaqueCBType where
  worldMatrix : Mat4
  viewProjMatrix : Mat4
  cameraPosition : Float4
  lightDirection : Float4
  lightColor : Float4
  shadowTransform : Mat4
  shadowBias : ℝ

/-- `PatchTess`: the four edge and two inside tessellation factors. -/
structure PatchTess where
  edgeTess : Fin 4 → ℝ
  insideTess : Fin 2 → ℝ

/-- `DS_OUT`: clip-space position and the cartesian position passed on to `PS`. -/
structure DS_OUT where
  position : Float4
  catPos : Float3

/-! ### Constant hull shader (`Shader.hlsli` lines 80–117) -/

/-- `static const float near = 20.0f`. -/
def near : ℝ := 20

/-- `static const float far = 150.0f`. -/
def far : ℝ := 150

/-- `CalcTessFactor` (`Shader.hlsli` 83–88): the distance-based tessellation factor
`pow(2, -8 * pow(s, 0.5) + 8)` with `s = saturate((d - near) / (far - near))`. -/
def CalcTessFactor (cb : OpaqueCBType) (p : Float3) : ℝ :=
  let d := dist3 p (xyz cb.cameraPosition)
  let s := saturate ((d - near) / (far - near))
  hlslPow 2 (-8 * hlslPow s 0.5 + 8)

/-- `ConstantHS` (`Shader.hlsli` 90–117).  Note `patch[i].position` is a `float4`
(with the pipeline supplying `w = 1`), so `normalize(patch[i].position)` is the
4-dimensional `normalize4`, truncated to `float3` on assignment; the patch
center `c`, by contrast, normalizes the 3-component `worldPos`. -/
def ConstantHS (cb : OpaqueCBType) (patch : Fin 4 → Float4) : PatchTess :=
  let localPos : Float3 :=
    xyz (smul4 0.25 (add4 (add4 (add4 (patch 0) (patch 1)) (patch 2)) (patch 3)))
  let worldPos : Float3 := xyz (mulVecMat (toFloat4 localPos 1) cb.worldMatrix)
  let p0 : Float3 := xyz (smul4 150 (normalize4 (patch 0)))
  let p1 : Float3 := xyz (smul4 150 (normalize4 (patch 1)))
  let p2 : Float3 := xyz (smul4 150 (normalize4 (patch 2)))
  let p3 : Float3 := xyz (smul4 150 (normalize4 (patch 3)))
  let e0 := smul3 0.5 (add3 p0 p2)
  let e1 := smul3 0.5 (add3 p0 p1)
  let e2 := smul3 0.5 (add3 p1 p3)
  let e3 := smul3 0.5 (add3 p2 p3)
  let c := smul3 150 (normalize3 worldPos)
  { edgeTess := ![CalcTessFactor cb e0, CalcTessFactor cb e1,
                  CalcTessFactor cb e2, CalcTessFactor cb e3],
    insideTess := ![CalcTessFactor cb c, CalcTessFactor cb c] }

/-- The spec's tessellation formula for claim C1:
`2 ^ (-8 * sqrt (saturate ((d - 20) / (150 - 20))) + 8)`. -/
def tessFormulaSpec (d : ℝ) : ℝ :=
  hlslPow 2 (-8 * Real.sqrt (saturate ((d - 20) / (150 - 20))) + 8)

/-- Spec-side reading of the control-point projection in claim C1: the control
point's `xyz`, projected to the radius-150 sphere by a 3-dimensional
normalization.  The shader instead applies `normalize4` to the full `float4`. -/
def projectToSphere150 (p : Float4) : Float3 := smul3 150 (normalize3 (xyz p))

/-- The shader's actual scaling of a control point: 4D-normalize the whole
`float4` (including `w`), scale by 150, truncate to `float3`. -/
def scale150Hom (p : Float4) : Float3 := xyz (smul4 150 (normalize4 p))

/-! ### Domain shader (`Shader.hlsli` lines 141–189) -/

def add2 (a b : ℝ × ℝ) : ℝ × ℝ := (a.1 + b.1, a.2 + b.2)

/-- `float2 * scalar`. -/
def mul2s (p : ℝ × ℝ) (s : ℝ) : ℝ × ℝ := (p.1 * s, p.2 * s)

def neg3 (v : Float3) : Float3 := ⟨-v.x, -v.y, -v.z⟩

/-- Componentwise `float3 * float3`. -/
def mul3 (a b : Float3) : Float3 := ⟨a.x * b.x, a.y * b.y, a.z * b.z⟩

/-- `float3 / scalar`. -/
def div3 (v : Float3) (s : ℝ) : Float3 := ⟨v.x / s, v.y / s, v.z / s⟩

/-- Bilinear interpolation of the quad patch (`DS` lines 151–153). -/
def dsPosition (ip : Fin 4 → Float3) (uv : ℝ × ℝ) : Float3 :=
  let v1 := lerp3 (ip 0) (ip 1) uv.1
  let v2 := lerp3 (ip 2) (ip 3) uv.1
  lerp3 v1 v2 uv.2

/-- Height-map mip level (`DS` line 160): `max(0, 8 - sqrt(tess) - 3)`. -/
def dsLevel (tess : ℝ) : ℝ := max 0 (8 - Real.sqrt tess - 3)

/-- Polar angle θ (`DS` lines 166–167, `PS` lines 272–273): `atan2(z, x)`,
shifted by `2*PI` when its sign is `-1`. -/
def polarTheta (n : Float3) : ℝ :=
  let theta := hlslAtan2 n.z n.x
  if hlslSign theta = -1 then 2 * PIL + theta else theta

/-- Polar angle φ (`DS` line 168, `PS` line 274): `acos(y)`. -/
def polarPhi (n : Float3) : ℝ := Real.arccos n.y

/-- Global texture coordinates (`DS` line 171, `PS` line 277):
`(theta / (2*PI), phi / PI)`. -/
def gTexCoordOf (n : Float3) : ℝ × ℝ := (polarTheta n / (2 * PIL), polarPhi n / PIL)

/-- DS texture index (`DS` line 174): `round(gTexCoord.x) + 2`. -/
def dsTexIndex (n : Float3) : ℤ := hlslRound (gTexCoordOf n).1 + 2

/-- DS re-mapped texture coordinates (`DS` line 175). -/
def dsSTexCoord (n : Float3) : ℝ × ℝ :=
  (if dsTexIndex n = 0 then (gTexCoordOf n).1 * 2 else ((gTexCoordOf n).1 - 0.5) * 2,
   (gTexCoordOf n).2)

/-- One `SampleLevel` call made by the domain shader: texture index, texture
coordinates and mip level. -/
structure Lookup where
  texIndex : ℤ
  coord : ℝ × ℝ
  level : ℝ

/-- `DS` (`Shader.hlsli` 146–189).  `sampleLevel i c l` is the oracle for
`texMap[i].SampleLevel(samAnisotropic, c, l).r`.  Besides the `DS_OUT` record,
the result carries the list of all `SampleLevel` calls the shader body makes. -/
def DS (sampleLevel : ℤ → ℝ × ℝ → ℝ → ℝ) (ip : Fin 4 → Float3) (uv : ℝ × ℝ)
    (patch : PatchTess) (cb : OpaqueCBType) : DS_OUT × List Lookup :=
  let position := dsPosition ip uv
  let tess := patch.edgeTess 0
  let level := dsLevel tess
  let normCatPos := normalize3 position
  let texIndex := dsTexIndex normCatPos
  let sTexCoord := dsSTexCoord normCatPos
  let height := sampleLevel texIndex sTexCoord level
  let catPos := smul3 (150 + height * 0.5) normCatPos
  let posWorld := mulVecMat (toFloat4 catPos 1) cb.worldMatrix
  let posClip := mulVecMat posWorld cb.viewProjMatrix
  ({ position := posClip, catPos := catPos }, [⟨texIndex, sTexCoord, level⟩])

/-! ### Pixel shader (`Shader.hlsli` lines 196–319) -/

/-- `static const float2 size = { 2.0, 0.0 }`. -/
def sizeC : ℝ × ℝ := (2, 0)

/-- `static const float3 off = { -1.0, 0.0, 1.0 }`. -/
def offC : Float3 := ⟨-1, 0, 1⟩

/-- `static const float2 nTex = { 11520, 11520 }`. -/
def nTexC : ℝ × ℝ := (11520, 11520)

/-- `GetNormalFromHeight` (`Shader.hlsli` 196–212).  `tex c` is the oracle for
`tex.Sample(samAnisotropic, c).r`. -/
def GetNormalFromHeight (tex : ℝ × ℝ → ℝ) (sTexCoord : ℝ × ℝ) (multiplier : ℝ) : Float3 :=
  let offxy : ℝ × ℝ := (offC.x / nTexC.1, offC.y / nTexC.2)
  let offzy : ℝ × ℝ := (offC.z / nTexC.1, offC.y / nTexC.2)
  let offyx : ℝ × ℝ := (offC.y / nTexC.1, offC.x / nTexC.2)
  let offyz : ℝ × ℝ := (offC.y / nTexC.1, offC.z / nTexC.2)
  let a := tex (add2 sTexCoord (mul2s offxy multiplier))
  let b := tex (add2 sTexCoord (mul2s offzy multiplier))
  let c := tex (add2 sTexCoord (mul2s offyx multiplier))
  let d := tex (add2 sTexCoord (mul2s offyz multiplier))
  let va := normalize3 ⟨sizeC.1, sizeC.2, (b - a) * 0.5⟩
  let vb := normalize3 ⟨sizeC.2, sizeC.1, (d - c) * 0.5⟩
  normalize3 (cross3 va vb)

/-- `CalcShadowFactor` (`Shader.hlsli` 214–243).  `sampleCmp c d` is the oracle
for `texMap[4].SampleCmpLevelZero(samShadow, c, d).r`, and `width` the shadow
map width reported by `GetDimensions`. -/
def CalcShadowFactor (sampleCmp : ℝ × ℝ → ℝ → ℝ) (width : ℕ) (cb : OpaqueCBType)
    (shadowPosH : Float4) : ℝ :=
  let px := shadowPosH.x / shadowPosH.w
  let py := shadowPosH.y / shadowPosH.w
  let pz := shadowPosH.z / shadowPosH.w
  let depth := pz - cb.shadowBias
  let dx : ℝ := 1 / (width : ℝ)
  let offsets : List (ℝ × ℝ) :=
    [(-dx, -dx), (0, -dx), (dx, -dx),
     (-dx, 0), (0, 0), (dx, 0),
     (-dx, dx), (0, dx), (dx, dx)]
  let percentLit :=
    offsets.foldl (fun acc o => acc + sampleCmp (saturate2 (add2 (px, py) o)) depth) 0
  percentLit / 9

/-- `hash` (`Shader.hlsli` 245–248). -/
def hash (p : ℝ × ℝ) : ℝ :=
  hlslFrac (1e4 * Real.sin (17 * p.1 + p.2 * 0.1) * (0.1 + |Real.sin (p.2 * 13 + p.1)|))

/-- `noise` (`Shader.hlsli` 250–263). -/
def noise (xv : ℝ × ℝ) : ℝ :=
  let i : ℝ × ℝ := ((⌊xv.1⌋ : ℤ), (⌊xv.2⌋ : ℤ))
  let f : ℝ × ℝ := (hlslFrac xv.1, hlslFrac xv.2)
  let a := hash i
  let b := hash (add2 i (1, 0))
  let c := hash (add2 i (0, 1))
  let d := hash (add2 i (1, 1))
  let u : ℝ × ℝ := (f.1 * f.1 * (3 - 2 * f.1), f.2 * f.2 * (3 - 2 * f.2))
  hlslLerp a b u.1 + (c - a) * u.2 * (1 - u.1) + (d - b) * u.1 * u.2

/-- PS texture index (`PS` line 280): `round(gTexCoord.x)` — without the `+ 2`
offset the domain shader adds. -/
def psTexIndex (n : Float3) : ℤ := hlslRound (gTexCoordOf n).1

/-- PS re-mapped texture coordinates (`PS` line 281). -/
def psSTexCoord (n : Float3) : ℝ × ℝ :=
  (if psTexIndex n = 0 then (gTexCoordOf n).1 * 2 else ((gTexCoordOf n).1 - 0.5) * 2,
   (gTexCoordOf n).2)

/-- The local normal of `PS` (lines 284–289): three `GetNormalFromHeight`
normals at multipliers 1, 2, 3, combined as `(n1*3 + n2*2 + n3*1) / 6` and
normalized. -/
def psLocalNormal (tex : ℝ × ℝ → ℝ) (sTexCoord : ℝ × ℝ) : Float3 :=
  let n1 := GetNormalFromHeight tex sTexCoord 1
  let n2 := GetNormalFromHeight tex sTexCoord 2
  let n3 := GetNormalFromHeight tex sTexCoord 3
  normalize3 (div3 (add3 (add3 (smul3 3 n1) (smul3 2 n2)) (smul3 1 n3)) 6)

/-- The TBN transform of `PS` (lines 292–298): rows `normalize(T)`,
`normalize(B)`, `normalize(N)` applied to the local normal, then normalized. -/
def psTBNNormal (localNormal n : Float3) (theta : ℝ) : Float3 :=
  let N := n
  let T : Float3 := ⟨-Real.sin theta, 0, Real.cos theta⟩
  let B := cross3 N T
  normalize3 (mulVec3Mat localNormal (normalize3 T) (normalize3 B) (normalize3 N))

/-- `PS` (`Shader.hlsli` 265–319).  `smp i c` is the oracle for
`texMap[i].Sample(samAnisotropic, c)` (a `float4`; `.r` is its `x` field),
`shadowCmp`/`shadowMapWidth` feed `CalcShadowFactor`. -/
def PS (smp : ℤ → ℝ × ℝ → Float4) (shadowCmp : ℝ × ℝ → ℝ → ℝ) (shadowMapWidth : ℕ)
    (cb : OpaqueCBType) (input : DS_OUT) : Float4 :=
  let normCatPos := normalize3 input.catPos
  let theta := polarTheta normCatPos
  let texIndex := psTexIndex normCatPos
  let sTexCoord := psSTexCoord normCatPos
  let texR : ℤ → ℝ × ℝ → ℝ := fun i c => (smp i c).x
  let localNormal := psLocalNormal (texR (texIndex + 2)) sTexCoord
  let normal := psTBNNormal localNormal normCatPos theta
  let texColor := smp texIndex sTexCoord
  let diffuse := smul3 (saturate (dot3 normal (neg3 (xyz cb.lightDirection)))) (xyz cb.lightColor)
  let ambient := mul3 ⟨0.008, 0.008, 0.008⟩ (xyz cb.lightColor)
  let shadowFactor :=
    CalcShadowFactor shadowCmp shadowMapWidth cb
      (mulVecMat (toFloat4 input.catPos 1) cb.shadowTransform)
  let shadowCorrector := hlslLerp 0.75 1 (max (dot3 normCatPos (neg3 (xyz cb.lightDirection))) 0)
  let noise1 := noise (mul2s sTexCoord 10000)
  let noise2 := noise (mul2s sTexCoord 20000)
  let h := dist3 input.catPos ⟨0, 0, 0⟩ - 150
  let rgb := saturate3
    (smul3 (hlslLerp 0.98 1 h)
      (smul3 (hlslLerp 0.92 1 noise2)
        (smul3 (hlslLerp 0.95 1 noise1)
          (mul3 (add3 (smul3 (saturate (shadowFactor + shadowCorrector)) diffuse) ambient)
            (xyz texColor)))))
  ⟨rgb.x, rgb.y, rgb.z, 1⟩

/-! ### The frame loop (`Game.cpp`) -/

/-- Events observable on the command list / command queue / fence during
`Game::Render`. -/
inductive GEvent
  | wait (fenceValue : ℕ)
  | setDescriptorTable (rootParameterIndex : ℕ)
  | setRootCBV (rootParameterIndex : ℕ)
  | drawIndexedInstanced (indexCount instanceCount : ℕ)
  | present
  | signal (fenceValue : ℕ)
deriving DecidableEq

def GEvent.isWait : GEvent → Bool
  | .wait _ => true
  | _ => false

def GEvent.isDraw : GEvent → Bool
  | .drawIndexedInstanced _ _ => true
  | _ => false

def GEvent.isSetRootCBV : GEvent → Bool
  | .setRootCBV _ => true
  | _ => false

def GEvent.isSetDescriptorTable : GEvent → Bool
  | .setDescriptorTable _ => true
  | _ => false

/-- `Game::Render` (`Game.cpp` 135–214) as the sequence of events it performs:
nothing when `m_timer.GetFrameCount() == 0`; otherwise at most one fence wait
(for value `frameIdx - numBackBuffers`, only when
`frameIdx > completedValue && frameIdx - completedValue > numBackBuffers`),
then the descriptor-table and root-CBV binds, one `DrawIndexedInstanced`,
`Present`, and a queue `Signal` of the fence with the current frame index. -/
def GameRender (frameCount frameIdx numBackBuffers completedValue indexCount : ℕ) :
    List GEvent :=
  if frameCount = 0 then []
  else
    (if completedValue < frameIdx ∧ numBackBuffers < frameIdx - completedValue then
      [GEvent.wait (frameIdx - numBackBuffers)]
    else [])
    ++ [GEvent.setDescriptorTable 0, GEvent.setRootCBV 1,
        GEvent.drawIndexedInstanced indexCount 1, GEvent.present, GEvent.signal frameIdx]

/-- `DirectX::Keyboard::State`, restricted to the keys `Game::Update` reads. -/
structure KeyboardState where
  W : Bool
  S : Bool
  A : Bool
  D : Bool
  Escape : Bool

/-- `DirectX::Mouse::State` relative deltas (integers in the library). -/
structure MouseState where
  x : ℤ
  y : ℤ

/-- Modelled from the spec: the DirectXMath helpers
(`XMMatrixRotationRollPitchYaw`, `XMVector3TransformCoord`, `XMMatrixLookAtLH`)
and the `DEFAULT_FORWARD/RIGHT/UP_VECTOR` constants of `Game.h` are not under
`src/`; the spec only says `Update` "updates a free-fly camera", so they are
kept uninterpreted. -/
structure XMOracle where
  rotationRollPitchYaw : ℝ → ℝ → ℝ → Mat4
  transformCoord : Float3 → Mat4 → Float3
  lookAtLH : Float3 → Float3 → Float3 → Mat4
  defaultForward : Float3
  defaultRight : Float3
  defaultUp : Float3

/-- The camera members of `Game` mutated by `Game::Update`. -/
structure CamState where
  yaw : ℝ
  pitch : ℝ
  position : Float3
  right : Float3
  up : Float3
  forward : Float3
  lookTarget : Float3
  rotationMatrix : Mat4
  viewMatrix : Mat4

/-- `Game::Update` (`Game.cpp` 84–130): poll keyboard and mouse, update yaw,
pitch, camera basis, position and view matrix.  The returned boolean records
whether `ExitGame()` was requested (Escape pressed). -/
def GameUpdate (xm : XMOracle) (kb : KeyboardState) (mouse : MouseState)
    (elapsedTime : ℝ) (s : CamState) : CamState × Bool :=
  let moveSpeed : ℝ := 5
  let verticalMove := (if kb.W then (1 : ℝ) else if kb.S then -1 else 0) * elapsedTime * moveSpeed
  let horizontalMove := (if kb.A then (-1 : ℝ) else if kb.D then 1 else 0) * elapsedTime * moveSpeed
  let yaw := s.yaw + (mouse.x : ℝ) * elapsedTime / 10
  let pitch := s.pitch + (mouse.y : ℝ) * elapsedTime / 10
  let rot := xm.rotationRollPitchYaw pitch yaw 0
  let lookTarget0 := normalize3 (xm.transformCoord xm.defaultForward rot)
  let right := xm.transformCoord xm.defaultRight rot
  let up := xm.transformCoord xm.defaultUp rot
  let forward := xm.transformCoord xm.defaultForward rot
  let position := add3 (add3 s.position (smul3 horizontalMove right)) (smul3 verticalMove forward)
  let lookTarget := add3 position lookTarget0
  ({ yaw := yaw, pitch := pitch, position := position, right := right, up := up,
     forward := forward, lookTarget := lookTarget, rotationMatrix := rot,
     viewMatrix := xm.lookAtLH position lookTarget up }, kb.Escape)

/-- Modelled from the spec: the DirectX `StepTimer` is not under `src/`; the
spec says the frame driver "advances a timer", so its state is the frame count
alone. -/
structure TimerState where
  frameCount : ℕ

/-- Modelled from the spec: in the default variable-timestep mode,
`StepTimer::Tick` advances the timer, incrementing the frame count and running
the update callback once. -/
def timerTick (t : TimerState) : TimerState := ⟨t.frameCount + 1⟩

/-- The `Game` members touched by `Game::Tick`. -/
structure GameState where
  timer : TimerState
  cam : CamState

/-- `Game::Tick` (`Game.cpp` 73–81): advance the timer — running `Update` with
the polled input inside `m_timer.Tick` — then call `Render`. -/
def GameTick (xm : XMOracle) (kb : KeyboardState) (mouse : MouseState) (elapsedTime : ℝ)
    (frameIdx numBackBuffers completedValue indexCount : ℕ) (st : GameState) :
    GameState × List GEvent :=
  let timer := timerTick st.timer
  let cam := (GameUpdate xm kb mouse elapsedTime st.cam).1
  (⟨timer, cam⟩, GameRender timer.frameCount frameIdx numBackBuffers completedValue indexCount)

/-! ### Device-dependent resource setup (`Game.cpp` 296–580) -/

/-- Resource-creation events of `Game::CreateDeviceDependentResources`. -/
inductive REvent
  | createRootSignature
  | createDescriptorHeap (numDescriptors : ℕ) (shaderVisible : Bool)
  | createTextureFromDDS (file : String)
  | createShaderResourceView
  | createCommittedBuffer (target : String) (sizeInBytes : ℕ)
  | createPipelineState
  | createFence
deriving DecidableEq

def REvent.isRootSignature : REvent → Bool
  | .createRootSignature => true
  | _ => false

def REvent.isDescriptorHeap : REvent → Bool
  | .createDescriptorHeap _ _ => true
  | _ => false

def REvent.isTexture : REvent → Bool
  | .createTextureFromDDS _ => true
  | _ => false

def REvent.isSRV : REvent → Bool
  | .createShaderResourceView => true
  | _ => false

def REvent.isBuffer (tgt : String) : REvent → Bool
  | .createCommittedBuffer t _ => t = tgt
  | _ => false

def REvent.isPipelineState : REvent → Bool
  | .createPipelineState => true
  | _ => false

/-- `Game::CreateDeviceDependentResources` (`Game.cpp` 296–580) as the sequence
of resources it creates, in source order.  `c_numDrawCalls` and the byte sizes
(`sizeof(PaddedConstantBuffer)` and the geometry buffer sizes, which depend on
`Game.h` and the DirectXTK `GeometryGenerator`, neither under `src/`) are kept
symbolic. -/
def CreateDeviceDependentResources
    (numDrawCalls backBufferCount paddedCBSize vertexBufferSize indexBufferSize : ℕ) :
    List REvent :=
  [REvent.createRootSignature,
   REvent.createDescriptorHeap 2 true,
   REvent.createTextureFromDDS "colormap.dds",
   REvent.createTextureFromDDS "displacement.dds",
   REvent.createShaderResourceView,
   REvent.createShaderResourceView,
   REvent.createCommittedBuffer "m_cbUploadHeap" (numDrawCalls * backBufferCount * paddedCBSize),
   REvent.createPipelineState,
   REvent.createCommittedBuffer "m_vertexBuffer" vertexBufferSize,
   REvent.createCommittedBuffer "m_indexBuffer" indexBufferSize,
   REvent.createFence]

/-- Identity 4×4 matrix (used only as concrete data for counterexamples). -/
def idMat4 : Mat4 := ⟨⟨1, 0, 0, 0⟩, ⟨0, 1, 0, 0⟩, ⟨0, 0, 1, 0⟩, ⟨0, 0, 0, 1⟩⟩

/-- Concrete constant buffer for the C1 counterexample: camera at `(90, 0, 20)`. -/
def cbCex : OpaqueCBType :=
  { worldMatrix := idMat4, viewProjMatrix := idMat4, cameraPosition := ⟨90, 0, 20, 1⟩,
    lightDirection := ⟨0, 0, 0, 0⟩, lightColor := ⟨0, 0, 0, 0⟩,
    shadowTransform := idMat4, shadowBias := 0 }

/-- Concrete patch for the C1 counterexample: all four control points
`(3, 0, 0, 4)` — in particular `w ≠ 0`, as the pipeline's `w = 1` also is. -/
def patchCex : Fin 4 → Float4 := fun _ => ⟨3, 0, 0, 4⟩

/-! ### Theorems -/

/-- `CalcTessFactor` computes exactly the spec's distance formula
`2^(-8·√(saturate((d-20)/(150-20))) + 8)` of the distance `d` from its input
point to the camera position. -/
theorem calcTessFactor_eq_formula (cb : OpaqueCBType) (p : Float3) :
    CalcTessFactor cb p = tessFormulaSpec (dist3 p (xyz cb.cameraPosition)) := by
  unfold CalcTessFactor tessFormulaSpec hlslPow near far
  rw [Real.sqrt_eq_rpow]
  norm_num

/-- C1 (amended): every edge tessellation factor of `ConstantHS` is the fixed
formula `2^(-8·√(saturate((d-20)/(150-20))) + 8)` of the distance from the
camera to the corresponding edge midpoint of the control points normalized as
4-vectors (including `w`) and scaled by 150 (`scale150Hom`; this is the
projection to the radius-150 sphere only when `w = 0`); the inside factor is
the same formula at the 3D-normalized world-space patch center scaled by 150,
and the two inside factors are equal. -/
theorem constantHS_edge_and_inside_factors (cb : OpaqueCBType) (patch : Fin 4 → Float4) :
    (ConstantHS cb patch).edgeTess 0 =
      tessFormulaSpec (dist3 (smul3 0.5 (add3 (scale150Hom (patch 0)) (scale150Hom (patch 2))))
        (xyz cb.cameraPosition)) ∧
    (ConstantHS cb patch).edgeTess 1 =
      tessFormulaSpec (dist3 (smul3 0.5 (add3 (scale150Hom (patch 0)) (scale150Hom (patch 1))))
        (xyz cb.cameraPosition)) ∧
    (ConstantHS cb patch).edgeTess 2 =
      tessFormulaSpec (dist3 (smul3 0.5 (add3 (scale150Hom (patch 1)) (scale150Hom (patch 3))))
        (xyz cb.cameraPosition)) ∧
    (ConstantHS cb patch).edgeTess 3 =
      tessFormulaSpec (dist3 (smul3 0.5 (add3 (scale150Hom (patch 2)) (scale150Hom (patch 3))))
        (xyz cb.cameraPosition)) ∧
    (ConstantHS cb patch).insideTess 0 =
      tessFormulaSpec (dist3
        (smul3 150 (normalize3 (xyz (mulVecMat
          (toFloat4 (xyz (smul4 0.25 (add4 (add4 (add4 (patch 0) (patch 1)) (patch 2))
            (patch 3)))) 1) cb.worldMatrix))))
        (xyz cb.cameraPosition)) ∧
    (ConstantHS cb patch).insideTess 1 = (ConstantHS cb patch).insideTess 0 := by
  refine ⟨?_, ?_, ?_, ?_, ?_, ?_⟩ <;>
    simp [ConstantHS, scale150Hom, calcTessFactor_eq_formula, Matrix.cons_val_zero,
      Matrix.cons_val_one, Matrix.head_cons, Matrix.cons_val_two, Matrix.tail_cons,
      Matrix.cons_val_three]

/-- C1 counterexample: the claim's reading — edge midpoints of the control
points *projected to the radius-150 sphere* (a 3D projection of `xyz`) — does
not match the shader.  For the patch with all control points `(3, 0, 0, 4)` and
camera `(90, 0, 20)`, the shader's `edgeTess[0]` is `256` (the 4D-normalized
point `(90,0,0)` is at distance exactly 20), while the claimed formula at the
3D-projected midpoint `(150,0,0)` gives a strictly smaller value. -/
theorem constantHS_spec_projection_counterexample :
    (ConstantHS cbCex patchCex).edgeTess 0 ≠
      tessFormulaSpec (dist3
        (smul3 0.5 (add3 (projectToSphere150 (patchCex 0)) (projectToSphere150 (patchCex 2))))
        (xyz cbCex.cameraPosition)) := by
  have h25 : Real.sqrt 25 = 5 := by
    rw [show (25 : ℝ) = 5 ^ 2 by norm_num]
    exact Real.sqrt_sq (by norm_num)
  have h9 : Real.sqrt 9 = 3 := by
    rw [show (9 : ℝ) = 3 ^ 2 by norm_num]
    exact Real.sqrt_sq (by norm_num)
  have h400 : Real.sqrt 400 = 20 := by
    rw [show (400 : ℝ) = 20 ^ 2 by norm_num]
    exact Real.sqrt_sq (by norm_num)
  have h2pow8 : (2 : ℝ) ^ (8 : ℝ) = 256 := by
    rw [show (8 : ℝ) = ((8 : ℕ) : ℝ) by norm_num, Real.rpow_natCast]
    norm_num
  have hscale : scale150Hom ⟨3, 0, 0, 4⟩ = ⟨90, 0, 0⟩ := by
    unfold scale150Hom normalize4 length4 dot4 smul4 xyz
    norm_num [h25]
  have hproj : projectToSphere150 ⟨3, 0, 0, 4⟩ = ⟨150, 0, 0⟩ := by
    unfold projectToSphere150 normalize3 length3 dot3 smul3 xyz
    norm_num [h9]
  have hLHS : (ConstantHS cbCex patchCex).edgeTess 0 = 256 := by
    have he : (ConstantHS cbCex patchCex).edgeTess 0 =
        CalcTessFactor cbCex (smul3 0.5 (add3 (scale150Hom (patchCex 0))
          (scale150Hom (patchCex 2)))) := by
      simp [ConstantHS, scale150Hom, Matrix.cons_val_zero]
    rw [he]
    show CalcTessFactor cbCex (smul3 0.5 (add3 (scale150Hom ⟨3, 0, 0, 4⟩)
      (scale150Hom ⟨3, 0, 0, 4⟩))) = 256
    rw [hscale]
    have hmid : smul3 0.5 (add3 (⟨90, 0, 0⟩ : Float3) ⟨90, 0, 0⟩) = ⟨90, 0, 0⟩ := by
      unfold smul3 add3
      norm_num
    rw [hmid]
    unfold CalcTessFactor dist3 length3 dot3 sub3 xyz cbCex saturate hlslPow near far
    norm_num [h400]
  have hd : dist3 (smul3 0.5 (add3 (projectToSphere150 (patchCex 0))
      (projectToSphere150 (patchCex 2)))) (xyz cbCex.cameraPosition) = Real.sqrt 4000 := by
    show dist3 (smul3 0.5 (add3 (projectToSphere150 ⟨3, 0, 0, 4⟩)
      (projectToSphere150 ⟨3, 0, 0, 4⟩))) (xyz cbCex.cameraPosition) = Real.sqrt 4000
    rw [hproj]
    unfold dist3 length3 dot3 sub3 smul3 add3 xyz cbCex
    norm_num
  have h20lt : (20 : ℝ) < Real.sqrt 4000 := by
    rw [← h400]
    exact Real.sqrt_lt_sqrt (by norm_num) (by norm_num)
  have hRHS : tessFormulaSpec (Real.sqrt 4000) < 256 := by
    unfold tessFormulaSpec hlslPow
    have hx : 0 < (Real.sqrt 4000 - 20) / (150 - 20) := by
      apply div_pos (by linarith) (by norm_num)
    have hsat : 0 < saturate ((Real.sqrt 4000 - 20) / (150 - 20)) := by
      unfold saturate
      rw [max_eq_left hx.le]
      exact lt_min hx one_pos
    have hsq : 0 < Real.sqrt (saturate ((Real.sqrt 4000 - 20) / (150 - 20))) :=
      Real.sqrt_pos.mpr hsat
    have hexp : -8 * Real.sqrt (saturate ((Real.sqrt 4000 - 20) / (150 - 20))) + 8 < 8 := by
      linarith
    calc (2 : ℝ) ^ (-8 * Real.sqrt (saturate ((Real.sqrt 4000 - 20) / (150 - 20))) + 8)
        < (2 : ℝ) ^ (8 : ℝ) := (Real.rpow_lt_rpow_left_iff one_lt_two).mpr hexp
      _ = 256 := h2pow8
  rw [hLHS, hd]
  exact ne_of_gt hRHS

/-- C2: the domain shader performs exactly one height-texture lookup, and its
mip level is `max(0, 8 - sqrt(tess) - 3)` where `tess = edgeTess[0]`. -/
theorem ds_single_lookup_and_mip_level (sampleLevel : ℤ → ℝ × ℝ → ℝ → ℝ)
    (ip : Fin 4 → Float3) (uv : ℝ × ℝ) (patch : PatchTess) (cb : OpaqueCBType) :
    (DS sampleLevel ip uv patch cb).2.length = 1 ∧
    (DS sampleLevel ip uv patch cb).2.map Lookup.level =
      [max 0 (8 - Real.sqrt (patch.edgeTess 0) - 3)] := by
  constructor <;> simp [DS, dsLevel]

/-- C3: the domain shader displaces the bilinearly interpolated cube position
onto the sphere — `catPos = normalize(position) * (150 + height * 0.5)` with
`height` sampled at the coordinates derived from the normalized position's
polar angles — and the output position is `catPos` transformed by the world and
view-projection matrices. -/
theorem ds_sphere_displacement (sampleLevel : ℤ → ℝ × ℝ → ℝ → ℝ)
    (ip : Fin 4 → Float3) (uv : ℝ × ℝ) (patch : PatchTess) (cb : OpaqueCBType) :
    (DS sampleLevel ip uv patch cb).1.catPos =
      smul3 (150 + sampleLevel (dsTexIndex (normalize3 (dsPosition ip uv)))
          (dsSTexCoord (normalize3 (dsPosition ip uv)))
          (dsLevel (patch.edgeTess 0)) * 0.5)
        (normalize3 (dsPosition ip uv)) ∧
    (DS sampleLevel ip uv patch cb).1.position =
      mulVecMat (mulVecMat (toFloat4 ((DS sampleLevel ip uv patch cb).1.catPos) 1)
        cb.worldMatrix) cb.viewProjMatrix := by
  exact ⟨rfl, rfl⟩

theorem saturate_nonneg (x : ℝ) : 0 ≤ saturate x :=
  le_min (le_max_right x 0) zero_le_one

theorem saturate_le_one (x : ℝ) : saturate x ≤ 1 :=
  min_le_right _ 1

theorem two_rpow_eight : (2 : ℝ) ^ (8 : ℝ) = 256 := by
  rw [show (8 : ℝ) = ((8 : ℕ) : ℝ) by norm_num, Real.rpow_natCast]
  norm_num

theorem rpow_half_eq_sqrt (x : ℝ) : hlslPow x 0.5 = Real.sqrt x := by
  rw [Real.sqrt_eq_rpow]
  unfold hlslPow
  norm_num

theorem hlslSign_eq_neg_one_iff (v : ℝ) : hlslSign v = -1 ↔ v < 0 := by
  unfold hlslSign
  split_ifs with h1 h2
  · exact iff_of_true rfl h1
  · exact iff_of_false (by norm_num) h1
  · exact iff_of_false (by norm_num) h1

/-- The wrapped polar angle of the shaders lies in `[0, 2·PI)` (with the
shader's `PI` literal). -/
theorem polarTheta_bounds (n : Float3) : 0 ≤ polarTheta n ∧ polarTheta n < 2 * PIL := by
  have hPIL : PIL = 3.1415926538 := rfl
  have hpi : Real.pi < 3.15 := Real.pi_lt_d2
  have hpi0 : 0 < Real.pi := Real.pi_pos
  simp only [polarTheta, hlslAtan2]
  have htle : Complex.arg ⟨n.x, n.z⟩ ≤ Real.pi := Complex.arg_le_pi _
  have htgt : -Real.pi < Complex.arg ⟨n.x, n.z⟩ := Complex.neg_pi_lt_arg _
  by_cases hneg : Complex.arg ⟨n.x, n.z⟩ < 0
  · rw [if_pos ((hlslSign_eq_neg_one_iff _).mpr hneg)]
    constructor
    · rw [hPIL] at *
      linarith
    · linarith
  · rw [if_neg (fun h => hneg ((hlslSign_eq_neg_one_iff _).mp h))]
    push_neg at hneg
    refine ⟨hneg, ?_⟩
    rw [hPIL] at *
    linarith

/-- The first (θ-derived) global texture coordinate lies in `[0, 1]`. -/
theorem gTexCoord_x_bounds (n : Float3) :
    0 ≤ (gTexCoordOf n).1 ∧ (gTexCoordOf n).1 ≤ 1 := by
  obtain ⟨h0, h1⟩ := polarTheta_bounds n
  have hP : (0 : ℝ) < 2 * PIL := by norm_num [PIL]
  simp only [gTexCoordOf]
  exact ⟨div_nonneg h0 hP.le, by rw [div_le_one hP]; exact h1.le⟩

theorem round_of_mem_unit {x : ℝ} (h0 : 0 ≤ x) (h1 : x ≤ 1) :
    round x = 0 ∨ round x = 1 := by
  rw [round_eq]
  have l1 : (0 : ℤ) ≤ ⌊x + 1 / 2⌋ := Int.floor_nonneg.mpr (by linarith)
  have l2 : ⌊x + 1 / 2⌋ ≤ ⌊(3 / 2 : ℝ)⌋ := Int.floor_le_floor (by linarith)
  have l3 : ⌊(3 / 2 : ℝ)⌋ = 1 := Int.floor_eq_iff.mpr ⟨by norm_num, by norm_num⟩
  omega

/-- C9: in the domain shader, `texIndex = round(gTexCoord.x) + 2` is always 2
or 3 (as `gTexCoord.x ∈ [0, 1]`), so the `texIndex == 0` branch is unreachable
and `sTexCoord.x` always equals `(gTexCoord.x - 0.5) * 2`; in the pixel shader,
where the `+ 2` offset is absent, both branches are reachable: `texIndex = 0`
at cartesian direction `(1, 0, 0)` and `texIndex = 1` at `(0, 0, -1)`. -/
theorem ds_branch_unreachable_ps_branches_reachable :
    (∀ n : Float3, 0 ≤ (gTexCoordOf n).1 ∧ (gTexCoordOf n).1 ≤ 1) ∧
    (∀ n : Float3, dsTexIndex n = 2 ∨ dsTexIndex n = 3) ∧
    (∀ n : Float3, dsTexIndex n ≠ 0 ∧
      (dsSTexCoord n).1 = ((gTexCoordOf n).1 - 0.5) * 2) ∧
    psTexIndex ⟨1, 0, 0⟩ = 0 ∧
    psTexIndex ⟨0, 0, -1⟩ = 1 := by
  have hPIL : PIL = 3.1415926538 := rfl
  have hpi : Real.pi < 3.15 := Real.pi_lt_d2
  have hpi0 : 0 < Real.pi := Real.pi_pos
  have hround : ∀ n : Float3, hlslRound (gTexCoordOf n).1 = 0 ∨
      hlslRound (gTexCoordOf n).1 = 1 := by
    intro n
    obtain ⟨h0, h1⟩ := gTexCoord_x_bounds n
    exact round_of_mem_unit h0 h1
  have hds : ∀ n : Float3, dsTexIndex n = 2 ∨ dsTexIndex n = 3 := by
    intro n
    unfold dsTexIndex
    rcases hround n with h | h <;> omega
  refine ⟨gTexCoord_x_bounds, hds, ?_, ?_, ?_⟩
  · intro n
    have hne : dsTexIndex n ≠ 0 := by rcases hds n with h | h <;> omega
    refine ⟨hne, ?_⟩
    simp only [dsSTexCoord, if_neg hne]
  · show psTexIndex ⟨1, 0, 0⟩ = 0
    have harg : Complex.arg ⟨(1 : ℝ), (0 : ℝ)⟩ = 0 := by
      rw [show (⟨(1 : ℝ), (0 : ℝ)⟩ : ℂ) = 1 from Complex.ext (by simp) (by simp)]
      exact Complex.arg_one
    have hth : polarTheta ⟨1, 0, 0⟩ = 0 := by
      simp only [polarTheta, hlslAtan2]
      rw [harg]
      rw [if_neg]
      rw [hlslSign_eq_neg_one_iff]
      norm_num
    unfold psTexIndex hlslRound
    simp only [gTexCoordOf, hth]
    norm_num
  · show psTexIndex ⟨0, 0, -1⟩ = 1
    have harg : Complex.arg ⟨(0 : ℝ), (-1 : ℝ)⟩ = -(Real.pi / 2) := by
      rw [show (⟨(0 : ℝ), (-1 : ℝ)⟩ : ℂ) = -Complex.I from
        Complex.ext (by simp) (by simp)]
      exact Complex.arg_neg_I
    have hth : polarTheta ⟨0, 0, -1⟩ = 2 * PIL + -(Real.pi / 2) := by
      simp only [polarTheta, hlslAtan2]
      rw [harg, if_pos]
      rw [hlslSign_eq_neg_one_iff]
      linarith
    unfold psTexIndex hlslRound
    simp only [gTexCoordOf, hth]
    rw [round_eq]
    have hb : (0 : ℝ) < 2 * PIL := by norm_num [PIL]
    have hlow0 : (1 : ℝ) / 2 ≤ (2 * PIL + -(Real.pi / 2)) / (2 * PIL) := by
      rw [le_div_iff₀ hb, hPIL]
      linarith
    have hlow : (1 : ℝ) ≤ (2 * PIL + -(Real.pi / 2)) / (2 * PIL) + 1 / 2 := by
      linarith
    have hhigh : (2 * PIL + -(Real.pi / 2)) / (2 * PIL) + 1 / 2 < 2 := by
      have h1 : (2 * PIL + -(Real.pi / 2)) / (2 * PIL) < 1 := by
        rw [div_lt_one hb]
        linarith
      linarith
    exact Int.floor_eq_iff.mpr ⟨by exact_mod_cast hlow, by exact_mod_cast hhigh⟩

/-- C10: `CalcTessFactor` always returns a value in `[1, 256]` (saturate keeps
the exponent `-8·√s + 8` in `[0, 8]`), and consequently the domain shader's mip
level `max(0, 8 - sqrt(tess) - 3)` of such a factor lies in `[0, 4]` — inside
the 0–5 range the mip comment advertises. -/
theorem calcTessFactor_range_and_mip_range (cb : OpaqueCBType) (p : Float3) :
    1 ≤ CalcTessFactor cb p ∧ CalcTessFactor cb p ≤ 256 ∧
    0 ≤ dsLevel (CalcTessFactor cb p) ∧ dsLevel (CalcTessFactor cb p) ≤ 4 := by
  set s := saturate ((dist3 p (xyz cb.cameraPosition) - near) / (far - near)) with hs
  have hfact : CalcTessFactor cb p = (2 : ℝ) ^ (-8 * Real.sqrt s + 8) := by
    simp only [CalcTessFactor, hlslPow]
    rw [hs, Real.sqrt_eq_rpow]
    norm_num
  have hsq0 : 0 ≤ Real.sqrt s := Real.sqrt_nonneg s
  have hsq1 : Real.sqrt s ≤ 1 := Real.sqrt_le_one.mpr (saturate_le_one _)
  have hlb : 1 ≤ CalcTessFactor cb p := by
    rw [hfact, show (1 : ℝ) = (2 : ℝ) ^ (0 : ℝ) from (Real.rpow_zero 2).symm]
    exact (Real.rpow_le_rpow_left_iff one_lt_two).mpr (by linarith)
  have hub : CalcTessFactor cb p ≤ 256 := by
    rw [hfact, ← two_rpow_eight]
    exact (Real.rpow_le_rpow_left_iff one_lt_two).mpr (by linarith)
  refine ⟨hlb, hub, le_max_left 0 _, ?_⟩
  have h16 : Real.sqrt 256 = 16 := by
    rw [show (256 : ℝ) = 16 ^ 2 by norm_num]
    exact Real.sqrt_sq (by norm_num)
  have ht1 : 1 ≤ Real.sqrt (CalcTessFactor cb p) := Real.one_le_sqrt.mpr hlb
  have ht2 : Real.sqrt (CalcTessFactor cb p) ≤ 16 := by
    rw [← h16]
    exact Real.sqrt_le_sqrt hub
  unfold dsLevel
  exact max_le (by norm_num) (by linarith)

/-- C5: `CalcShadowFactor` returns the arithmetic mean of exactly 9
depth-comparison samples, taken at the projected (`/w`) shadow position offset
by the 3×3 grid of one-texel offsets (texel size `1/width`, positions clamped
to `[0,1]²` by `saturate`), each compared against the NDC depth minus the
shadow bias — i.e. `percentLit / 9`. -/
theorem calcShadowFactor_nine_tap_mean (sampleCmp : ℝ × ℝ → ℝ → ℝ) (width : ℕ)
    (cb : OpaqueCBType) (shadowPosH : Float4) :
    CalcShadowFactor sampleCmp width cb shadowPosH =
      (sampleCmp (saturate2 (shadowPosH.x / shadowPosH.w + -(1 / (width : ℝ)),
          shadowPosH.y / shadowPosH.w + -(1 / (width : ℝ))))
          (shadowPosH.z / shadowPosH.w - cb.shadowBias) +
        sampleCmp (saturate2 (shadowPosH.x / shadowPosH.w + 0,
          shadowPosH.y / shadowPosH.w + -(1 / (width : ℝ))))
          (shadowPosH.z / shadowPosH.w - cb.shadowBias) +
        sampleCmp (saturate2 (shadowPosH.x / shadowPosH.w + 1 / (width : ℝ),
          shadowPosH.y / shadowPosH.w + -(1 / (width : ℝ))))
          (shadowPosH.z / shadowPosH.w - cb.shadowBias) +
        sampleCmp (saturate2 (shadowPosH.x / shadowPosH.w + -(1 / (width : ℝ)),
          shadowPosH.y / shadowPosH.w + 0))
          (shadowPosH.z / shadowPosH.w - cb.shadowBias) +
        sampleCmp (saturate2 (shadowPosH.x / shadowPosH.w + 0,
          shadowPosH.y / shadowPosH.w + 0))
          (shadowPosH.z / shadowPosH.w - cb.shadowBias) +
        sampleCmp (saturate2 (shadowPosH.x / shadowPosH.w + 1 / (width : ℝ),
          shadowPosH.y / shadowPosH.w + 0))
          (shadowPosH.z / shadowPosH.w - cb.shadowBias) +
        sampleCmp (saturate2 (shadowPosH.x / shadowPosH.w + -(1 / (width : ℝ)),
          shadowPosH.y / shadowPosH.w + 1 / (width : ℝ)))
          (shadowPosH.z / shadowPosH.w - cb.shadowBias) +
        sampleCmp (saturate2 (shadowPosH.x / shadowPosH.w + 0,
          shadowPosH.y / shadowPosH.w + 1 / (width : ℝ)))
          (shadowPosH.z / shadowPosH.w - cb.shadowBias) +
        sampleCmp (saturate2 (shadowPosH.x / shadowPosH.w + 1 / (width : ℝ),
          shadowPosH.y / shadowPosH.w + 1 / (width : ℝ)))
          (shadowPosH.z / shadowPosH.w - cb.shadowBias)) / 9 := by
  simp only [CalcShadowFactor, add2, List.foldl]
  ring

/-- C6: `GetNormalFromHeight` takes four height samples offset by one texel
(`1/11520`) left/right and up/down scaled by the multiplier, forms the
normalized vectors `(2, 0, (b-a)/2)` and `(0, 2, (d-c)/2)`, and returns their
normalized cross product; the pixel shader's local normal combines three such
normals at multipliers 1, 2, 3 with weights 3:2:1, normalizes, and transforms
by the TBN basis. -/
theorem normal_from_height_finite_differences :
    (∀ (tex : ℝ × ℝ → ℝ) (c : ℝ × ℝ) (m : ℝ),
      GetNormalFromHeight tex c m =
        normalize3 (cross3
          (normalize3 ⟨2, 0,
            (tex (add2 c (mul2s (1 / 11520, 0 / 11520) m)) -
              tex (add2 c (mul2s (-1 / 11520, 0 / 11520) m))) / 2⟩)
          (normalize3 ⟨0, 2,
            (tex (add2 c (mul2s (0 / 11520, 1 / 11520) m)) -
              tex (add2 c (mul2s (0 / 11520, -1 / 11520) m))) / 2⟩))) ∧
    (∀ (tex : ℝ × ℝ → ℝ) (s : ℝ × ℝ),
      psLocalNormal tex s =
        normalize3 ⟨(3 * (GetNormalFromHeight tex s 1).x +
            2 * (GetNormalFromHeight tex s 2).x + (GetNormalFromHeight tex s 3).x) / 6,
          (3 * (GetNormalFromHeight tex s 1).y +
            2 * (GetNormalFromHeight tex s 2).y + (GetNormalFromHeight tex s 3).y) / 6,
          (3 * (GetNormalFromHeight tex s 1).z +
            2 * (GetNormalFromHeight tex s 2).z + (GetNormalFromHeight tex s 3).z) / 6⟩) ∧
    (∀ (localNormal nc : Float3) (theta : ℝ),
      psTBNNormal localNormal nc theta =
        normalize3 (mulVec3Mat localNormal
          (normalize3 ⟨-Real.sin theta, 0, Real.cos theta⟩)
          (normalize3 (cross3 nc ⟨-Real.sin theta, 0, Real.cos theta⟩))
          (normalize3 nc))) := by
  refine ⟨?_, ?_, ?_⟩
  · intro tex c m
    show normalize3 (cross3 _ _) = normalize3 (cross3 _ _)
    congr 2
    · congr 1
      simp only [sizeC, offC, nTexC, Float3.mk.injEq]
      exact ⟨trivial, trivial, by ring⟩
    · congr 1
      simp only [sizeC, offC, nTexC, Float3.mk.injEq]
      exact ⟨trivial, trivial, by ring⟩
  · intro tex s
    show normalize3 _ = normalize3 _
    congr 1
    simp only [div3, add3, smul3, Float3.mk.injEq]
    refine ⟨by ring, by ring, by ring⟩
  · intro localNormal nc theta
    rfl

/-- C4: in every call to `Game::Render` the CPU blocks on the fence at most
once; a wait occurs exactly when rendering proceeds (nonzero frame count) and
the frame index exceeds the fence's completed value by more than the
back-buffer count, and the wait is for fence value `frameIdx - numBackBuffers`;
and whenever `Render` presents (frame count nonzero), the `Present` is followed
by a queue `Signal` of the fence with the current frame index. -/
theorem render_single_fence_wait
    (frameCount frameIdx numBackBuffers completedValue indexCount : ℕ) :
    ((GameRender frameCount frameIdx numBackBuffers completedValue indexCount).countP
      (fun e => e.isWait) ≤ 1) ∧
    (∀ v, GEvent.wait v ∈
        GameRender frameCount frameIdx numBackBuffers completedValue indexCount ↔
      frameCount ≠ 0 ∧ completedValue + numBackBuffers < frameIdx ∧
        v = frameIdx - numBackBuffers) ∧
    [GEvent.present, GEvent.signal frameIdx].Sublist
      (GameRender (frameCount + 1) frameIdx numBackBuffers completedValue indexCount) := by
  refine ⟨?_, ?_, ?_⟩
  · unfold GameRender
    split_ifs <;> simp [GEvent.isWait]
  · intro v
    unfold GameRender
    split_ifs with h1 h2 <;> simp [h1, GEvent.wait.injEq] <;> omega
  · have hbody : [GEvent.present, GEvent.signal frameIdx].Sublist
        [GEvent.setDescriptorTable 0, GEvent.setRootCBV 1,
         GEvent.drawIndexedInstanced indexCount 1, GEvent.present,
         GEvent.signal frameIdx] :=
      List.IsSuffix.sublist ⟨[GEvent.setDescriptorTable 0, GEvent.setRootCBV 1,
        GEvent.drawIndexedInstanced indexCount 1], rfl⟩
    unfold GameRender
    rw [if_neg (by omega : ¬frameCount + 1 = 0)]
    exact hbody.trans (List.sublist_append_right _ _)

/-- C7: on every `Tick` the timer advances (frame count + 1) and `Update` runs
once — adding `mouse.x·dt/10` to the yaw and `mouse.y·dt/10` to the pitch,
moving the position along the rotated right/forward axes by the keyboard moves,
and rebuilding the view matrix with `LookAtLH` — and the subsequent `Render`
issues exactly one indexed draw call. -/
theorem tick_updates_camera_and_draws_once (xm : XMOracle) (kb : KeyboardState)
    (mouse : MouseState) (elapsedTime : ℝ)
    (frameIdx numBackBuffers completedValue indexCount : ℕ) (st : GameState) :
    ((GameTick xm kb mouse elapsedTime frameIdx numBackBuffers completedValue
        indexCount st).1.timer.frameCount = st.timer.frameCount + 1) ∧
    ((GameTick xm kb mouse elapsedTime frameIdx numBackBuffers completedValue
        indexCount st).1.cam = (GameUpdate xm kb mouse elapsedTime st.cam).1) ∧
    ((GameUpdate xm kb mouse elapsedTime st.cam).1.yaw =
      st.cam.yaw + (mouse.x : ℝ) * elapsedTime / 10) ∧
    ((GameUpdate xm kb mouse elapsedTime st.cam).1.pitch =
      st.cam.pitch + (mouse.y : ℝ) * elapsedTime / 10) ∧
    ((GameUpdate xm kb mouse elapsedTime st.cam).1.position =
      add3 (add3 st.cam.position
        (smul3 ((if kb.A then (-1 : ℝ) else if kb.D then 1 else 0) * elapsedTime * 5)
          (xm.transformCoord xm.defaultRight
            ((GameUpdate xm kb mouse elapsedTime st.cam).1.rotationMatrix))))
        (smul3 ((if kb.W then (1 : ℝ) else if kb.S then -1 else 0) * elapsedTime * 5)
          (xm.transformCoord xm.defaultForward
            ((GameUpdate xm kb mouse elapsedTime st.cam).1.rotationMatrix)))) ∧
    ((GameUpdate xm kb mouse elapsedTime st.cam).1.viewMatrix =
      xm.lookAtLH ((GameUpdate xm kb mouse elapsedTime st.cam).1.position)
        ((GameUpdate xm kb mouse elapsedTime st.cam).1.lookTarget)
        ((GameUpdate xm kb mouse elapsedTime st.cam).1.up)) ∧
    ((GameTick xm kb mouse elapsedTime frameIdx numBackBuffers completedValue
        indexCount st).2.countP (fun e => e.isDraw) = 1) ∧
    GEvent.drawIndexedInstanced indexCount 1 ∈
      (GameTick xm kb mouse elapsedTime frameIdx numBackBuffers completedValue
        indexCount st).2 := by
  refine ⟨rfl, rfl, rfl, rfl, rfl, rfl, ?_, ?_⟩
  · show (GameRender (st.timer.frameCount + 1) frameIdx numBackBuffers completedValue
      indexCount).countP (fun e => e.isDraw) = 1
    unfold GameRender
    rw [if_neg (by omega : ¬st.timer.frameCount + 1 = 0)]
    split_ifs <;> simp [GEvent.isDraw]
  · show GEvent.drawIndexedInstanced indexCount 1 ∈
      GameRender (st.timer.frameCount + 1) frameIdx numBackBuffers completedValue indexCount
    unfold GameRender
    rw [if_neg (by omega : ¬st.timer.frameCount + 1 = 0)]
    split_ifs <;> simp

/-- C8: `CreateDeviceDependentResources` creates exactly one root signature,
one pipeline state, one shader-visible descriptor heap with two descriptors,
two DDS textures (`colormap.dds`, `displacement.dds`) with two SRVs, one
constant-buffer ring of `c_numDrawCalls * backBufferCount` slots, one vertex
buffer and one index buffer; and the rendering path binds exactly one root
constant buffer view and one descriptor table (the two textures). -/
theorem resources_created_once
    (numDrawCalls backBufferCount paddedCBSize vertexBufferSize indexBufferSize
      frameCount frameIdx numBackBuffers completedValue indexCount : ℕ) :
    ((CreateDeviceDependentResources numDrawCalls backBufferCount paddedCBSize
        vertexBufferSize indexBufferSize).countP (fun e => e.isRootSignature) = 1) ∧
    ((CreateDeviceDependentResources numDrawCalls backBufferCount paddedCBSize
        vertexBufferSize indexBufferSize).countP (fun e => e.isPipelineState) = 1) ∧
    ((CreateDeviceDependentResources numDrawCalls backBufferCount paddedCBSize
        vertexBufferSize indexBufferSize).countP (fun e => e.isDescriptorHeap) = 1) ∧
    REvent.createDescriptorHeap 2 true ∈
      CreateDeviceDependentResources numDrawCalls backBufferCount paddedCBSize
        vertexBufferSize indexBufferSize ∧
    ((CreateDeviceDependentResources numDrawCalls backBufferCount paddedCBSize
        vertexBufferSize indexBufferSize).countP (fun e => e.isTexture) = 2) ∧
    REvent.createTextureFromDDS "colormap.dds" ∈
      CreateDeviceDependentResources numDrawCalls backBufferCount paddedCBSize
        vertexBufferSize indexBufferSize ∧
    REvent.createTextureFromDDS "displacement.dds" ∈
      CreateDeviceDependentResources numDrawCalls backBufferCount paddedCBSize
        vertexBufferSize indexBufferSize ∧
    ((CreateDeviceDependentResources numDrawCalls backBufferCount paddedCBSize
        vertexBufferSize indexBufferSize).countP (fun e => e.isSRV) = 2) ∧
    ((CreateDeviceDependentResources numDrawCalls backBufferCount paddedCBSize
        vertexBufferSize indexBufferSize).countP
        (fun e => e.isBuffer "m_cbUploadHeap") = 1) ∧
    REvent.createCommittedBuffer "m_cbUploadHeap"
        (numDrawCalls * backBufferCount * paddedCBSize) ∈
      CreateDeviceDependentResources numDrawCalls backBufferCount paddedCBSize
        vertexBufferSize indexBufferSize ∧
    ((CreateDeviceDependentResources numDrawCalls backBufferCount paddedCBSize
        vertexBufferSize indexBufferSize).countP
        (fun e => e.isBuffer "m_vertexBuffer") = 1) ∧
    ((CreateDeviceDependentResources numDrawCalls backBufferCount paddedCBSize
        vertexBufferSize indexBufferSize).countP
        (fun e => e.isBuffer "m_indexBuffer") = 1) ∧
    ((GameRender (frameCount + 1) frameIdx numBackBuffers completedValue
        indexCount).countP (fun e => e.isSetRootCBV) = 1) ∧
    ((GameRender (frameCount + 1) frameIdx numBackBuffers completedValue
        indexCount).countP (fun e => e.isSetDescriptorTable) = 1) := by
  refine ⟨?_, ?_, ?_, ?_, ?_, ?_, ?_, ?_, ?_, ?_, ?_, ?_, ?_, ?_⟩ <;>
    first
      | (simp +decide [CreateDeviceDependentResources, REvent.isRootSignature,
          REvent.isPipelineState, REvent.isDescriptorHeap, REvent.isTexture,
          REvent.isSRV, REvent.isBuffer])
      | (unfold GameRender
         rw [if_neg (by omega : ¬frameCount + 1 = 0)]
         split_ifs <;>
           simp [GEvent.isSetRootCBV, GEvent.isSetDescriptorTable, GEvent.isWait,
             GEvent.isDraw])

end Apollo
